import Mathlib

/-!
Shallow embedding, in Lean 4, of the execution-and-analysis core of the
`Ai_interviewer` repository: the `CodeExecutionService` (temporary-file
lifecycle, per-test execution, output comparison), the socket-side
`code_change` handler and `CodeAnalysisService` defaults, the
`InterviewSession.calculateOverallScore` aggregation, and the client-side
hint-tier / AI-response-cooldown state machine of `CandidateCoding.tsx`.

Machine reals and wall clocks are modelled as `Nat` millisecond values;
JavaScript timers are modelled as firing exactly at their scheduled delay.
-/

namespace AiInterviewer

/-- The whitespace class used by JavaScript `trim`, `\s` and friends,
restricted to its ASCII members (the sources only ever meet ASCII). -/
def isWS (c : Char) : Bool :=
  c = ' ' || c = '\t' || c = '\n' || c = '\r' || c = '\x0b' || c = '\x0c'

/-- `String.prototype.trim` on the character list: drop whitespace from
both ends. -/
def trimChars (l : List Char) : List Char :=
  ((l.dropWhile isWS).reverse.dropWhile isWS).reverse

/-- `String.prototype.trim`. -/
def jsTrim (s : String) : String := ⟨trimChars s.data⟩

/-- `String.prototype.toLowerCase` (ASCII-adequate). -/
def lowerChars (l : List Char) : List Char := l.map Char.toLower

/-- `.replace(/\s+/g, ' ')`: every maximal run of whitespace becomes one
space.  The boolean accumulator records whether the previous character was
part of a whitespace run already emitted. -/
def collapseWS : Bool → List Char → List Char
  | _, [] => []
  | prev, c :: rest =>
    if isWS c then
      if prev then collapseWS true rest else ' ' :: collapseWS true rest
    else c :: collapseWS false rest

mutual
/-- A JavaScript value as it can reach `compareOutputs`: a raw string, an
integer number, or a (possibly nested) array.  Other JSON shapes never
reach the comparison in the claims under study. -/
inductive JSValue where
  | str (s : String)
  | num (n : Int)
  | arr (elems : JSList)

/-- The element list of a JavaScript array value (a mutual inductive is
used in place of the nested `List JSValue`). -/
inductive JSList where
  | nil
  | cons (head : JSValue) (tail : JSList)
end

/-- Build a `JSList` from a Lean list of values. -/
def JSList.ofList : List JSValue → JSList
  | [] => .nil
  | x :: rest => .cons x (JSList.ofList rest)

/-- A JavaScript array value given as a Lean list. -/
def jarr (l : List JSValue) : JSValue := .arr (JSList.ofList l)

mutual
/-- JavaScript `String()` coercion: strings are themselves, numbers print
in decimal, an array is the comma-join of its coerced elements (brackets
are NOT printed — `String([1,2]) = "1,2"`). -/
def jsToString : JSValue → String
  | .str s => s
  | .num n => toString n
  | .arr xs => String.intercalate "," (jsElems xs)

/-- The coerced element strings of an array, in order. -/
def jsElems : JSList → List String
  | .nil => []
  | .cons x rest => jsToString x :: jsElems rest
end

/-- The `normalize` closure of `CodeExecutionService.compareOutputs`:
`String(str).trim().toLowerCase().replace(/\s+/g, ' ')`. -/
def normalizeOutput (v : JSValue) : String :=
  ⟨collapseWS false (lowerChars (trimChars (jsToString v).data))⟩

/-- `CodeExecutionService.compareOutputs`: equality of the two normalized
outputs. -/
def compareOutputs (actual expected : JSValue) : Bool :=
  normalizeOutput actual == normalizeOutput expected

/-! ### JSON.parse, modelled on the fragment the executors exchange

The executors call the platform builtin `JSON.parse` on trimmed stdout.
It is modelled here on the fragment actually exchanged: integer literals,
escape-free string literals, and (nested) arrays, with interspersed
whitespace; any other JSON text is treated as unparseable, which sends the
caller to its raw-string fallback exactly as a real parse error would. -/

/-- Drop leading whitespace. -/
def skipWS (l : List Char) : List Char := l.dropWhile isWS

/-- Value of a non-empty digit run. -/
def digitsToNat (l : List Char) : Nat :=
  l.foldl (fun acc c => acc * 10 + (c.toNat - 48)) 0

/-- Parse an optionally-signed integer literal, returning it and the rest
of the input. -/
def parseNumber : List Char → Option (Int × List Char)
  | '-' :: rest =>
    let ds := rest.takeWhile Char.isDigit
    if ds = [] then none else some (-(digitsToNat ds : Int), rest.drop ds.length)
  | l =>
    let ds := l.takeWhile Char.isDigit
    if ds = [] then none else some ((digitsToNat ds : Int), l.drop ds.length)

mutual
/-- Parse one JSON value (fuel-indexed recursive descent). -/
def parseValue : Nat → List Char → Option (JSValue × List Char)
  | 0, _ => none
  | fuel + 1, l =>
    match skipWS l with
    | '[' :: rest =>
      (match skipWS rest with
       | ']' :: r2 => some (jarr [], r2)
       | _ =>
         match parseElems fuel rest with
         | some (vs, r2) => some (jarr vs, r2)
         | none => none)
    | '"' :: rest =>
      let content := rest.takeWhile (fun c => c ≠ '"')
      (match rest.drop content.length with
       | '"' :: r2 => some (.str ⟨content⟩, r2)
       | _ => none)
    | other =>
      match parseNumber other with
      | some (n, r) => some (.num n, r)
      | none => none

/-- Parse the element sequence of a JSON array up to and including the
closing bracket. -/
def parseElems : Nat → List Char → Option (List JSValue × List Char)
  | 0, _ => none
  | fuel + 1, l =>
    match parseValue fuel l with
    | none => none
    | some (v, r) =>
      match skipWS r with
      | ',' :: r2 =>
        (match parseElems fuel r2 with
         | some (vs, r3) => some (v :: vs, r3)
         | none => none)
      | ']' :: r2 => some ([v], r2)
      | _ => none
end

/-- `JSON.parse` on a whole string: one value, nothing but whitespace
after it. -/
def parseJson (s : String) : Option JSValue :=
  match parseValue (s.length + 1) s.data with
  | some (v, rest) => if skipWS rest = [] then some v else none
  | none => none

/-! ### CodeExecutionService: per-test execution

The OS-level behaviour of a spawned process (its exit code, captured
stdout/stderr, or a spawn error) is external input to the service; it is
modelled by the event types below.  Node's `timeout` option kills the
process and then fires `close` with a non-zero/null code, so the timeout
path is a `closed` event with non-zero exit.  Wall-clock fields
(`executionTime`, `memoryUsage`) are not modelled. -/

/-- What one spawned process did: the `close` event with its exit code and
captured streams, or the `error` event of a failed spawn. -/
inductive ProcEvent where
  | closed (exitCode : Int) (stdout stderr : String)
  | spawnError (message : String)

/-- Outcome of one executor run: the resolved output value, or the message
of the rejection. -/
inductive ExecOutcome where
  | success (output : JSValue)
  | failure (message : String)

/-- `new Error(error || 'Execution failed')`: stderr if non-empty, else the
fixed default. -/
def stderrOrDefault (stderr : String) : String :=
  if stderr = "" then "Execution failed" else stderr

/-- The text after the first occurrence of `pat`, or `none` when `pat`
does not occur. -/
def afterFirst (pat : List Char) : List Char → Option (List Char)
  | [] => none
  | c :: rest =>
    if pat.isPrefixOf (c :: rest) then some ((c :: rest).drop pat.length)
    else afterFirst pat rest

/-- The capture group of `output.match(/ACTUAL_OUTPUT:\s*(.+)/)`: the text
after the first marker, leading whitespace skipped, up to the end of the
line; `none` when the marker is absent or nothing matchable follows. -/
def afterMarker (output : String) : Option String :=
  match afterFirst "ACTUAL_OUTPUT:".data output.data with
  | none => none
  | some tail =>
    let cap := (tail.dropWhile isWS).takeWhile (fun c => c ≠ '\n' && c ≠ '\r')
    if cap = [] then none else some ⟨cap⟩

/-- The stdout handling of `executeJavaScript`'s `close` handler on exit
code 0: parse the marker capture (or, without a marker, the whole trimmed
output) as JSON; on any parse failure resolve the raw trimmed output. -/
def jsParsedOutput (output : String) : JSValue :=
  match afterMarker output with
  | some cap =>
    (match parseJson (jsTrim cap) with
     | some v => v
     | none => .str (jsTrim output))
  | none =>
    match parseJson (jsTrim output) with
    | some v => v
    | none => .str (jsTrim output)

/-- `executeJavaScript`: rejection on spawn error; rejection with
stderr-or-default on non-zero exit; otherwise the parsed stdout. -/
def jsOutcome : ProcEvent → ExecOutcome
  | .spawnError msg => .failure msg
  | .closed code out err =>
    if code ≠ 0 then .failure (stderrOrDefault err) else .success (jsParsedOutput out)

/-- The stdout handling of `executePython`'s `close` handler on exit code
0: parse the whole trimmed output as JSON, falling back to the raw trimmed
string. -/
def pyParsedOutput (output : String) : JSValue :=
  match parseJson (jsTrim output) with
  | some v => v
  | none => .str (jsTrim output)

/-- `executePython`: same shape as `executeJavaScript`, without the
`ACTUAL_OUTPUT:` marker. -/
def pyOutcome : ProcEvent → ExecOutcome
  | .spawnError msg => .failure msg
  | .closed code out err =>
    if code ≠ 0 then .failure (stderrOrDefault err) else .success (pyParsedOutput out)

/-- What the two processes of one `executeCpp` call did.  When the
compiler exits non-zero the run process is never spawned, so its event is
ignored on that branch. -/
inductive CppEvent where
  | compileSpawnError (message : String)
  | compileClosed (compileExit : Int) (compileStderr : String) (run : ProcEvent)

/-- `executeCpp`: reject `Compilation failed: <stderr>` on non-zero
compiler exit; otherwise run the binary, resolving the raw trimmed stdout
(C++ output is never JSON-parsed). -/
def cppOutcome : CppEvent → ExecOutcome
  | .compileSpawnError msg => .failure msg
  | .compileClosed cc cerr run =>
    if cc ≠ 0 then .failure ("Compilation failed: " ++ cerr)
    else
      match run with
      | .spawnError msg => .failure msg
      | .closed code out err =>
        if code ≠ 0 then .failure (stderrOrDefault err)
        else .success (.str (jsTrim out))

/-- One test case as `executeTests` receives it. -/
structure TestCase where
  input : JSValue
  expectedOutput : String

/-- The external process behaviour backing one `executeSingleTest` call:
an interpreter process (JavaScript/Python) or a compile+run pair (C++).
The executor selected by the language determines which shape occurs; a
mismatched shape cannot arise and is mapped to a generic failure. -/
inductive TestEvent where
  | interp (e : ProcEvent)
  | cpp (e : CppEvent)

/-- `String.prototype.toLowerCase` as a whole-string operation. -/
def jsToLower (s : String) : String := ⟨lowerChars s.data⟩

/-- The language dispatch of `executeSingleTest`: the `switch` on
`language.toLowerCase()` with its `Unsupported language` default.  The
executor chosen by the branch determines the event shape; a mismatched
shape cannot arise at runtime and is mapped to a generic failure. -/
def outcomeFor (language : String) (ev : TestEvent) : ExecOutcome :=
  if jsToLower language = "javascript" then
    match ev with
    | .interp e => jsOutcome e
    | .cpp _ => .failure "Execution failed"
  else if jsToLower language = "python" then
    match ev with
    | .interp e => pyOutcome e
    | .cpp _ => .failure "Execution failed"
  else if jsToLower language = "c++" then
    match ev with
    | .cpp e => cppOutcome e
    | .interp _ => .failure "Execution failed"
  else .failure ("Unsupported language: " ++ language)

/-- One entry of the result list (`executionTime`/`memoryUsage` wall-clock
fields are not modelled). -/
structure ExecResult where
  testCase : String
  input : JSValue
  expectedOutput : String
  actualOutput : JSValue
  passed : Bool
  error : Option String

/-- How `executeSingleTest` turns an executor outcome into a result
record: the `try` branch compares outputs; the `catch` branch records
`actualOutput = 'Execution Error'`, `passed = false` and the error
message. -/
def mkResult (tc : TestCase) (n : Nat) : ExecOutcome → ExecResult
  | .success out =>
    { testCase := "Test Case " ++ toString n
      input := tc.input
      expectedOutput := tc.expectedOutput
      actualOutput := out
      passed := compareOutputs out (.str tc.expectedOutput)
      error := none }
  | .failure msg =>
    { testCase := "Test Case " ++ toString n
      input := tc.input
      expectedOutput := tc.expectedOutput
      actualOutput := .str "Execution Error"
      passed := false
      error := some msg }

/-- `CodeExecutionService.executeSingleTest(code, language, testCase, n)`,
with the process behaviour supplied as an event. -/
def executeSingleTest (language : String) (ev : TestEvent) (tc : TestCase) (n : Nat) : ExecResult :=
  mkResult tc n (outcomeFor language ev)

/-- The `for` loop of `executeTests`, carrying the 1-based test number. -/
def executeTestsFrom (language : String) (events : Nat → TestEvent) :
    Nat → List TestCase → List ExecResult
  | _, [] => []
  | i, tc :: rest =>
    executeSingleTest language (events i) tc (i + 1) ::
      executeTestsFrom language events (i + 1) rest

/-- `CodeExecutionService.executeTests(code, language, testCases)`: one
sequential `executeSingleTest` per test case, results pushed in order.
(The surrounding `try/catch` is unreachable because `executeSingleTest`
catches everything; its fallback also maps one record per test case.) -/
def executeTests (language : String) (testCases : List TestCase)
    (events : Nat → TestEvent) : List ExecResult :=
  executeTestsFrom language events 0 testCases

/-! ### Temporary-file lifecycle

For each execution the service writes a source file (and, for C++, `g++`
produces a binary once compilation succeeds) and the `close`/`error`
handlers call `fs.unlinkSync`.  The exit paths are enumerated below;
`created` lists the files existing when the path is taken and `unlinked`
the files the handler on that path removes.  Node's run timeout kills the
process and surfaces as a `closed` path. -/

/-- Exit paths of one `executeJavaScript`/`executePython` call: the child
process closed (success, non-zero exit, crash or timeout kill), or its
spawn failed. -/
inductive InterpExit where
  | procClosed (exitCode : Int)
  | procSpawnError

/-- Files on disk when an interpreter exit path runs: the source file
written by `writeFileSync`. -/
def interpCreated : InterpExit → List String
  | _ => ["tempFile"]

/-- Files unlinked by the interpreter `close`/`error` handlers. -/
def interpUnlinked : InterpExit → List String
  | .procClosed _ => ["tempFile"]
  | .procSpawnError => ["tempFile"]

/-- Exit paths of one `executeCpp` call. -/
inductive CppExit where
  | compileSpawnError
  | compileNonzeroExit
  | runClosed (exitCode : Int)
  | runSpawnError

/-- Files on disk when a C++ exit path runs: the source always; the binary
only once `g++` has exited successfully. -/
def cppCreated : CppExit → List String
  | .compileSpawnError => ["tempFile"]
  | .compileNonzeroExit => ["tempFile"]
  | .runClosed _ => ["tempFile", "executableFile"]
  | .runSpawnError => ["tempFile", "executableFile"]

/-- Files unlinked by the C++ `close`/`error` handlers on each path. -/
def cppUnlinked : CppExit → List String
  | .compileSpawnError => ["tempFile"]
  | .compileNonzeroExit => ["tempFile"]
  | .runClosed _ => ["tempFile", "executableFile"]
  | .runSpawnError => ["tempFile", "executableFile"]

/-! ### CandidateCoding.tsx: hint tiers, structural-smell rule, cooldown -/

/-- `String.prototype.includes` (for a non-empty needle, as used by the
sources): does `sub` occur in `s`? -/
def jsIncludes (s sub : String) : Bool :=
  if sub = "" then true else (afterFirst sub.data s.data).isSome

/-- The problem catalog of `CandidateCoding.tsx` (titles are what
`generateHint` dispatches on). -/
def problemTitles : List String :=
  ["3Sum (LeetCode #15)", "Product of Array Except Self (LeetCode #238)"]

/-- `generateHint(tier)` for the problem with the given title: non-empty
hint text for tiers 1–3 of the two catalog problems, `""` otherwise. -/
def generateHint (title : String) (tier : Nat) : String :=
  if jsIncludes title "3Sum" then
    match tier with
    | 1 => "Can you think of a data structure that helps with fast lookups and avoiding duplicates?"
    | 2 => "A hash set can help you track which numbers you\x27ve seen already. Also consider sorting the array first."
    | 3 => "Try sorting the array first, then for each element, use two pointers to find pairs that sum to the negative of that element."
    | _ => ""
  else if jsIncludes title "Product of Array Except Self" then
    match tier with
    | 1 => "Think about how you can calculate the product of all elements except the current one without using division."
    | 2 => "Consider using prefix and suffix products. Calculate the product of all elements to the left and right of each position."
    | 3 => "Use two passes: first pass calculates left products, second pass calculates right products and combines them."
    | _ => ""
  else ""

/-- The per-problem hint state of `CandidateCoding.tsx` (times are epoch
milliseconds). -/
structure CodingState where
  hintTier : Nat
  syntaxErrors : Nat
  idleStartTime : Option Nat
  currentProblem : Nat

/-- `triggerHint`: below the cap, generate the next tier's hint and — when
it is non-empty — advance the tier and reset the idle/error counters; at
tier 3 do nothing. -/
def triggerHint (s : CodingState) : CodingState :=
  if s.hintTier < 3 then
    let newTier := s.hintTier + 1
    let newHint := generateHint (problemTitles.getD s.currentProblem "") newTier
    if newHint ≠ "" then
      { s with hintTier := newTier, idleStartTime := none, syntaxErrors := 0 }
    else s
  else s

/-- `moveToNextProblem`: on a non-final problem, advance and reset the
hint tier (and counters) for the new problem; on the final problem the
interview completes instead and the state is unchanged. -/
def moveToNextProblem (s : CodingState) : CodingState :=
  if s.currentProblem < problemTitles.length - 1 then
    { s with
      currentProblem := s.currentProblem + 1
      hintTier := 0
      syntaxErrors := 0
      idleStartTime := none }
  else s

/-- The condition of `checkForHint`'s rule 3, exactly as written:
`code.includes('for') && code.includes('for') && code.includes('for') &&
hintTier < 3`. -/
def rule3Fires (code : String) (hintTier : Nat) : Bool :=
  jsIncludes code "for" && jsIncludes code "for" && jsIncludes code "for" &&
    decide (hintTier < 3)

/-- Which of `checkForHint`'s three rules triggers a hint, honouring the
source's early returns: idle > 2 minutes first, then ≥ 3 accumulated
syntax errors, then the structural-smell rule. -/
inductive HintRule where
  | idleRule
  | errorRule
  | smellRule
deriving DecidableEq

/-- `checkForHint` (`now` and `idleStartTime` in epoch milliseconds): the
rule that fires, or `none`. -/
def checkForHint (idleStartTime : Option Nat) (now : Nat) (syntaxErrors : Nat)
    (code : String) (hintTier : Nat) : Option HintRule :=
  if (match idleStartTime with
      | some t => decide (now - t > 2 * 60 * 1000)
      | none => false) && decide (hintTier < 3) then
    some .idleRule
  else if syntaxErrors ≥ 3 && hintTier < 3 then
    some .errorRule
  else if rule3Fires code hintTier then
    some .smellRule
  else none

/-- The AI-response cooldown state: the time of the last dispatched
automated response, if any.  The `aiResponseCooldown` flag is set on
dispatch and cleared by a `setTimeout` of 2 minutes; timers are modelled
as firing exactly at their delay, so the flag is a function of the current
time. -/
structure CooldownState where
  lastAIResponseTime : Option Nat

/-- The `aiResponseCooldown` flag at time `now`: set by
`updateAIResponseTime` and cleared 2 minutes later by its timer. -/
def aiResponseCooldown (s : CooldownState) (now : Nat) : Bool :=
  match s.lastAIResponseTime with
  | none => false
  | some t => decide (now < t + 2 * 60 * 1000)

/-- `canSendAIResponse`: true when there was no previous response, or at
least 2 minutes have elapsed and the cooldown flag is clear. -/
def canSendAIResponse (s : CooldownState) (now : Nat) : Bool :=
  match s.lastAIResponseTime with
  | none => true
  | some t => decide (now - t ≥ 2 * 60 * 1000) && !aiResponseCooldown s now

/-- `updateAIResponseTime`: record the dispatch time (and start the
cooldown). -/
def updateAIResponseTime (now : Nat) : CooldownState :=
  { lastAIResponseTime := some now }

/-- What the 2-minute monitoring effect does with an automated-response
opportunity: schedule the (2-minute-delayed) send, silently skip it while
the cooldown holds, or ignore ineligible code.  There is no error
outcome. -/
inductive AIRequestOutcome where
  | scheduled
  | suppressed
  | notEligible
deriving DecidableEq

/-- The periodic-analysis branch of the monitoring interval: eligible code
(≥ 3 trimmed characters, live socket, AI enabled) is sent when
`canSendAIResponse` allows and skipped with a log line when it does not. -/
def periodicAnalysisDecision (codeTrimLength : Nat) (hasSocket aiEnabled : Bool)
    (s : CooldownState) (now : Nat) : AIRequestOutcome :=
  if decide (codeTrimLength ≥ 3) && hasSocket && aiEnabled && canSendAIResponse s now then
    .scheduled
  else if decide (codeTrimLength ≥ 3) && hasSocket && aiEnabled && !canSendAIResponse s now then
    .suppressed
  else .notEligible

/-! ### Server side: code_change handler, analyzer default, overall score -/

/-- The fields of `getEmptyCodeAnalysis` the claims speak about. -/
structure AnalysisResult where
  score : Int
  feedback : String
deriving DecidableEq

/-- `CodeAnalysisService.getEmptyCodeAnalysis()`: the fixed "start coding"
default. -/
def getEmptyCodeAnalysis : AnalysisResult :=
  { score := 0, feedback := "Start coding to see analysis" }

/-- `CodeAnalysisService.analyzeCodeInRealTime`: empty code short-circuits
to the fixed default; otherwise the full (heuristic + AI) analysis runs,
supplied here as the parameter `fullAnalysis` since it calls the external
AI service. -/
def analyzeCodeInRealTime (fullAnalysis : String → AnalysisResult)
    (code : String) : AnalysisResult :=
  if (jsTrim code).length = 0 then getEmptyCodeAnalysis else fullAnalysis code

/-- What the socket `code_change` handler does: `skipped` when it returns
early (nothing emitted, no analysis invoked), `analyzed r` when it runs
the analyzer and emits its result. -/
inductive CodeChangeOutcome where
  | skipped
  | analyzed (result : AnalysisResult)
deriving DecidableEq

/-- The `code_change` handler's analysis path: missing or short
(< 3 trimmed characters) code returns early; otherwise
`analyzeCodeInRealTime` runs and its result is emitted. -/
def codeChangeHandler (fullAnalysis : String → AnalysisResult)
    (code : Option String) : CodeChangeOutcome :=
  match code with
  | none => .skipped
  | some c =>
    if (jsTrim c).length < 3 then .skipped
    else .analyzed (analyzeCodeInRealTime fullAnalysis c)

/-- JavaScript `Math.round`: round half toward positive infinity. -/
def jsRound (q : ℚ) : ℤ := ⌊q + 1 / 2⌋

/-- One entry of `interviewSession.codeSubmissions` as the score
computation reads it. -/
structure CodeSubmission where
  passedTests : Nat
  totalTests : Nat

/-- The per-submission `overallScore` set by the `run_tests` handler:
`Math.round((passedTests / totalTests) * 100)`, or 0 without tests. -/
def submissionOverallScore (s : CodeSubmission) : ℤ :=
  if s.totalTests > 0 then jsRound ((s.passedTests : ℚ) / s.totalTests * 100) else 0

/-- The session fields that feed (or, for the analysis scores, could feed)
the overall score: the submission list and the code-quality scores of
`aiAnalysis.codeAnalysis`. -/
structure SessionRecord where
  codeSubmissions : List CodeSubmission
  analysisScores : List ℤ

/-- `InterviewSessionSchema.methods.calculateOverallScore`: 0 without
submissions, else `Math.round` of the mean of the per-submission
scores. -/
def calculateOverallScore (session : SessionRecord) : ℤ :=
  if session.codeSubmissions.length = 0 then 0
  else
    jsRound
      (((session.codeSubmissions.map submissionOverallScore).sum : ℚ) /
        session.codeSubmissions.length)

/-- The rating thresholds of the `complete_interview_session` handler. -/
def overallRating (score : ℤ) : String :=
  if score ≥ 90 then "excellent"
  else if score ≥ 75 then "good"
  else if score ≥ 60 then "average"
  else if score ≥ 40 then "below-average"
  else "poor"

/-- The completion summary's score and rating: the handler reads
`interviewSession.overallScore`, which `run_tests` last set to
`calculateOverallScore()`. -/
def completionScoreAndRating (session : SessionRecord) : ℤ × String :=
  (calculateOverallScore session, overallRating (calculateOverallScore session))

/-- The messages of the events a spawn (`error`) handler can receive come
from the operating system; Node system errors always carry a non-empty
message.  This predicate states that assumption for one test's events;
every other failure message is built by the service itself. -/
def spawnMsgsNonempty : TestEvent → Prop
  | .interp (.spawnError m) => m ≠ ""
  | .interp (.closed _ _ _) => True
  | .cpp (.compileSpawnError m) => m ≠ ""
  | .cpp (.compileClosed _ _ (.spawnError m)) => m ≠ ""
  | .cpp (.compileClosed _ _ (.closed _ _ _)) => True

/-! ## Theorems -/

/-- A string whose first summand is non-empty is non-empty. -/
theorem append_ne_empty (a b : String) (ha : a.data ≠ []) : a ++ b ≠ "" := by
  intro hc
  apply ha
  have hd := congrArg String.data hc
  rw [String.data_append] at hd
  exact (List.append_eq_nil.mp hd).1

/-- The message built for a non-zero exit is never empty: either stderr
was non-empty or the fixed default is used. -/
theorem stderrOrDefault_ne_empty (stderr : String) : stderrOrDefault stderr ≠ "" := by
  unfold stderrOrDefault
  split
  · intro hc
    exact absurd (congrArg String.data hc) (by simp)
  · assumption

/-- C2, counterexample: `compareOutputs("[1, 2]", "[1,2]")` returns
`false` on the code, because the whitespace run in `"[1, 2]"` is collapsed
to a single space rather than removed, leaving the two normalized strings
different. -/
theorem compareOutputs_bracket_space_false :
    compareOutputs (.str "[1, 2]") (.str "[1,2]") = false := by decide

/-- C2, amended: `compareOutputs` is case-insensitive equality after
trimming and collapsing every whitespace run to a single space (not
removing it): duplicating a whitespace character inside a run never
changes the collapsed form, case and surrounding whitespace changes do not
change the verdict, but whitespace standing where the other string has
none makes the comparison fail — in particular
`compareOutputs("[1, 2]", "[1,2]") = false`. -/
theorem compareOutputs_whitespace_collapsed_amended :
    (∀ a e : JSValue, compareOutputs a e = (normalizeOutput a == normalizeOutput e)) ∧
    (∀ (b : Bool) (xs ys : List Char) (c : Char), isWS c = true →
      collapseWS b (xs ++ c :: c :: ys) = collapseWS b (xs ++ c :: ys)) ∧
    compareOutputs (.str "[1,  2]") (.str " [1, 2]") = true ∧
    compareOutputs (.str "[A, B]") (.str "[a, b]") = true ∧
    compareOutputs (.str "[1, 2]") (.str "[1,2]") = false := by
  refine ⟨fun a e => rfl, ?_, by decide, by decide, by decide⟩
  intro b xs ys c h
  induction xs generalizing b with
  | nil => cases b <;> simp [collapseWS, h]
  | cons x xs ih => cases hw : isWS x <;> cases b <;> simp [collapseWS, hw, ih]

/-- Witness for the amended C2 theorem at a concrete input. -/
theorem compareOutputs_whitespace_collapsed_amended_witness :
    collapseWS false (['a'] ++ ' ' :: ' ' :: ['b']) = collapseWS false (['a'] ++ ' ' :: ['b']) :=
  compareOutputs_whitespace_collapsed_amended.2.1 false ['a'] ['b'] ' ' (by decide)

/-- C6: every exit path of a single execution — the child process closing
(success, non-zero exit, crash, timeout kill) or failing to spawn —
unlinks exactly the temporary files existing on that path: the source file
always, and for C++ also the compiled binary once it exists. -/
theorem cleanup_on_every_exit_path :
    (∀ p : InterpExit, interpUnlinked p = interpCreated p) ∧
    (∀ p : CppExit, cppUnlinked p = cppCreated p) := by
  constructor
  · intro p
    cases p <;> rfl
  · intro p
    cases p <;> rfl

/-- C7, counterexample: a `code_change` event whose source has 2 meaningful
characters makes the handler return early, emitting nothing — not the
fixed "start coding" result the claim promises. -/
theorem code_change_short_source_emits_nothing :
    codeChangeHandler (fun _ => getEmptyCodeAnalysis) (some "ab") = .skipped ∧
    CodeChangeOutcome.skipped ≠ CodeChangeOutcome.analyzed getEmptyCodeAnalysis := by
  constructor
  · rfl
  · decide

/-- C7, amended: a `code_change` event with fewer than 3 meaningful
characters short-circuits without invoking any analysis and emits no
result at all; the fixed "start coding" default with `score = 0` is what
the analyzer returns when it is invoked directly on empty source. -/
theorem code_change_short_circuit_amended (full : String → AnalysisResult)
    (code : String) (h : (jsTrim code).length < 3) :
    codeChangeHandler full (some code) = .skipped ∧
    codeChangeHandler full none = .skipped ∧
    analyzeCodeInRealTime full "" = getEmptyCodeAnalysis ∧
    getEmptyCodeAnalysis.score = 0 ∧
    getEmptyCodeAnalysis.feedback = "Start coding to see analysis" := by
  refine ⟨?_, rfl, rfl, rfl, rfl⟩
  simp [codeChangeHandler, h]

/-- Witness for the amended C7 theorem at a concrete input. -/
theorem code_change_short_circuit_amended_witness :
    codeChangeHandler (fun _ => getEmptyCodeAnalysis) (some " a ") = .skipped ∧
    codeChangeHandler (fun _ => getEmptyCodeAnalysis) none = .skipped ∧
    analyzeCodeInRealTime (fun _ => getEmptyCodeAnalysis) "" = getEmptyCodeAnalysis ∧
    getEmptyCodeAnalysis.score = 0 ∧
    getEmptyCodeAnalysis.feedback = "Start coding to see analysis" :=
  code_change_short_circuit_amended (fun _ => getEmptyCodeAnalysis) " a " (by decide)

/-- C9: on a JavaScript (marker-prefixed) or Python run whose stdout
parses as JSON, the parsed value — not the raw text — becomes the actual
output; `compareOutputs` then coerces it with `String()`, which joins an
array without brackets, so `[1,2]` is compared as the bracket-free
`"1,2"`: it matches the expected string `"1,2"` and fails against
`"[1,2]"`. -/
theorem parsed_stdout_compared_bracket_free :
    jsOutcome (.closed 0 "ACTUAL_OUTPUT: [1,2]\n" "") = .success (jarr [.num 1, .num 2]) ∧
    pyOutcome (.closed 0 "[1, 2]\n" "") = .success (jarr [.num 1, .num 2]) ∧
    jsToString (jarr [.num 1, .num 2]) = "1,2" ∧
    compareOutputs (jarr [.num 1, .num 2]) (.str "1,2") = true ∧
    compareOutputs (jarr [.num 1, .num 2]) (.str "[1,2]") = false ∧
    (executeSingleTest "javascript" (.interp (.closed 0 "ACTUAL_OUTPUT: [1,2]\n" ""))
      ⟨jarr [.num 1, .num 2], "[1,2]"⟩ 1).actualOutput = jarr [.num 1, .num 2] ∧
    (executeSingleTest "javascript" (.interp (.closed 0 "ACTUAL_OUTPUT: [1,2]\n" ""))
      ⟨jarr [.num 1, .num 2], "[1,2]"⟩ 1).passed = false :=
  ⟨rfl, rfl, rfl, by decide, by decide, rfl, by decide⟩

/-- C10: the structural-smell rule of `checkForHint` repeats the same
`code.includes('for')` conjunct three times, so it is equivalent to a
single substring test: with the other rules quiescent it fires exactly
when the code contains `"for"` anywhere — a single loop, or even the word
`"performance"` — and the tier is below 3. -/
theorem smell_rule_fires_on_single_for_substring :
    (∀ (code : String) (tier : Nat),
      rule3Fires code tier = (jsIncludes code "for" && decide (tier < 3))) ∧
    (∀ (now : Nat) (code : String) (tier : Nat),
      checkForHint none now 0 code tier =
        (if rule3Fires code tier then some .smellRule else none)) ∧
    checkForHint none 0 0 "performance" 0 = some .smellRule ∧
    checkForHint none 0 0 "for (let i = 0; i < n; i = i + 1) total = total + i;" 0 =
      some .smellRule ∧
    checkForHint none 0 0 "while (x) y();" 0 = none ∧
    rule3Fires "performance" 3 = false := by
  refine ⟨?_, ?_, by decide, by decide, by decide, by decide⟩
  · intro code tier
    cases h : jsIncludes code "for" <;> simp [rule3Fires, h]
  · intro now code tier
    simp [checkForHint]

/-- Every rejection message is non-empty, granted that spawn-error
messages (which come from the OS) are: the service's own messages are the
fixed defaults, `Compilation failed: …`, or `Unsupported language: …`. -/
theorem outcomeFor_failure_ne_empty (language : String) (ev : TestEvent)
    (hs : spawnMsgsNonempty ev) (m : String)
    (h : outcomeFor language ev = .failure m) : m ≠ "" := by
  have hunsup : ("Unsupported language: " ++ language) ≠ "" :=
    append_ne_empty _ _ (by decide)
  have hexec : ("Execution failed" : String) ≠ "" := by
    intro hc
    exact absurd (congrArg String.data hc) (by decide)
  cases ev with
  | interp e =>
    cases e with
    | spawnError msg =>
      simp only [spawnMsgsNonempty] at hs
      simp only [outcomeFor, jsOutcome, pyOutcome] at h
      split at h
      · cases h; exact hs
      · split at h
        · cases h; exact hs
        · split at h
          · cases h; exact hexec
          · cases h; exact hunsup
    | closed code out err =>
      simp only [outcomeFor, jsOutcome, pyOutcome] at h
      split at h
      · split at h
        · cases h; exact stderrOrDefault_ne_empty err
        · cases h
      · split at h
        · split at h
          · cases h; exact stderrOrDefault_ne_empty err
          · cases h
        · split at h
          · cases h; exact hexec
          · cases h; exact hunsup
  | cpp e =>
    cases e with
    | compileSpawnError msg =>
      simp only [spawnMsgsNonempty] at hs
      simp only [outcomeFor, cppOutcome] at h
      split at h
      · cases h; exact hexec
      · split at h
        · cases h; exact hexec
        · split at h
          · cases h; exact hs
          · cases h; exact hunsup
    | compileClosed cc cerr run =>
      cases run with
      | spawnError msg =>
        simp only [spawnMsgsNonempty] at hs
        simp only [outcomeFor, cppOutcome] at h
        split at h
        · cases h; exact hexec
        · split at h
          · cases h; exact hexec
          · split at h
            · split at h
              · cases h; exact append_ne_empty _ _ (by decide)
              · cases h; exact hs
            · cases h; exact hunsup
      | closed code out err =>
        simp only [outcomeFor, cppOutcome] at h
        split at h
        · cases h; exact hexec
        · split at h
          · cases h; exact hexec
          · split at h
            · split at h
              · cases h; exact append_ne_empty _ _ (by decide)
              · split at h
                · cases h; exact stderrOrDefault_ne_empty err
                · cases h
            · cases h; exact hunsup

/-- The result list of the execution loop has one entry per remaining test
case. -/
theorem executeTestsFrom_length (language : String) (events : Nat → TestEvent) :
    ∀ (k : Nat) (tcs : List TestCase),
      (executeTestsFrom language events k tcs).length = tcs.length
  | _, [] => rfl
  | k, _ :: rest => by
    simp [executeTestsFrom, executeTestsFrom_length language events (k + 1) rest]

/-- The `i`-th result of the execution loop started at index `k` is the
single-test result of the `i`-th remaining test case, numbered
`k + i + 1`. -/
theorem executeTestsFrom_getElem (language : String) (events : Nat → TestEvent) :
    ∀ (k : Nat) (tcs : List TestCase) (i : Nat) (tc : TestCase), tcs[i]? = some tc →
      (executeTestsFrom language events k tcs)[i]? =
        some (executeSingleTest language (events (k + i)) tc (k + i + 1))
  | _, [], i, tc, h => by simp at h
  | k, t :: rest, 0, tc, h => by
    simp only [List.getElem?_cons_zero, Option.some.injEq] at h
    subst h
    simp [executeTestsFrom]
  | k, t :: rest, i + 1, tc, h => by
    simp only [List.getElem?_cons_succ] at h
    have hr := executeTestsFrom_getElem language events (k + 1) rest i tc h
    have harith : k + 1 + i = k + (i + 1) := by omega
    rw [harith] at hr
    simpa [executeTestsFrom] using hr

/-- C1: `executeTests` returns exactly one result per supplied test case,
in input order (the `i`-th record carries the `i`-th test case's input,
expected output and 1-based label), and a test whose execution fails still
yields a record with `passed = false` and the non-empty rejection message
in its `error` field. -/
theorem executeTests_one_result_per_test (language : String)
    (testCases : List TestCase) (events : Nat → TestEvent)
    (hs : ∀ i, spawnMsgsNonempty (events i)) :
    (executeTests language testCases events).length = testCases.length ∧
    ∀ i tc, testCases[i]? = some tc →
      ∃ r, (executeTests language testCases events)[i]? = some r ∧
        r.testCase = "Test Case " ++ toString (i + 1) ∧
        r.input = tc.input ∧
        r.expectedOutput = tc.expectedOutput ∧
        ∀ m, outcomeFor language (events i) = .failure m →
          r.passed = false ∧ r.error = some m ∧ m ≠ "" := by
  constructor
  · exact executeTestsFrom_length language events 0 testCases
  · intro i tc h
    refine ⟨executeSingleTest language (events i) tc (i + 1), ?_, ?_, ?_, ?_, ?_⟩
    · simpa using executeTestsFrom_getElem language events 0 testCases i tc h
    · cases ho : outcomeFor language (events i) <;>
        simp [executeSingleTest, ho, mkResult]
    · cases ho : outcomeFor language (events i) <;>
        simp [executeSingleTest, ho, mkResult]
    · cases ho : outcomeFor language (events i) <;>
        simp [executeSingleTest, ho, mkResult]
    · intro m hm
      refine ⟨?_, ?_, outcomeFor_failure_ne_empty language (events i) (hs i) m hm⟩
      · simp [executeSingleTest, hm, mkResult]
      · simp [executeSingleTest, hm, mkResult]

/-- Witness for C1 at a concrete batch: one JavaScript test case whose
process prints its result and exits 0. -/
theorem executeTests_one_result_per_test_witness :
    (executeTests "javascript" [⟨.num 1, "1"⟩]
      (fun _ => .interp (.closed 0 "ACTUAL_OUTPUT: 1\n" ""))).length = 1 :=
  (executeTests_one_result_per_test "javascript" [⟨.num 1, "1"⟩]
    (fun _ => .interp (.closed 0 "ACTUAL_OUTPUT: 1\n" ""))
    (fun _ => trivial)).1

/-- C3, counterexample: a 2-test C++ batch whose compiler exits non-zero
(stderr `boom`) produces two per-test failure records — not one
batch-level `CompileError` — because every `executeSingleTest` call
compiles the source afresh and catches its own compile rejection. -/
theorem cpp_compile_error_reported_per_test :
    (executeTests "c++" [⟨.num 1, "a"⟩, ⟨.num 2, "b"⟩]
      (fun _ => .cpp (.compileClosed 1 "boom" (.closed 0 "" "")))).length = 2 ∧
    (executeTests "c++" [⟨.num 1, "a"⟩, ⟨.num 2, "b"⟩]
      (fun _ => .cpp (.compileClosed 1 "boom" (.closed 0 "" "")))).length ≠ 1 ∧
    (executeTests "c++" [⟨.num 1, "a"⟩, ⟨.num 2, "b"⟩]
      (fun _ => .cpp (.compileClosed 1 "boom" (.closed 0 "" ""))))[0]? =
      some (mkResult ⟨.num 1, "a"⟩ 1 (.failure ("Compilation failed: boom"))) ∧
    (executeTests "c++" [⟨.num 1, "a"⟩, ⟨.num 2, "b"⟩]
      (fun _ => .cpp (.compileClosed 1 "boom" (.closed 0 "" ""))))[1]? =
      some (mkResult ⟨.num 2, "b"⟩ 2 (.failure ("Compilation failed: boom"))) ∧
    (mkResult ⟨.num 1, "a"⟩ 1 (.failure ("Compilation failed: boom"))).passed = false ∧
    (mkResult ⟨.num 1, "a"⟩ 1 (.failure ("Compilation failed: boom"))).error =
      some ("Compilation failed: boom") :=
  ⟨rfl, by decide, rfl, rfl, rfl, rfl⟩

/-- C3, amended: when the C++ compiler exits non-zero, the compile error
is reported per test case: the batch still yields one `ExecutionResult`
per test case, each with `passed = false` and its own
`Compilation failed: <stderr>` message — compilation is repeated for every
test case, and no batch-level `CompileError` exists. -/
theorem cpp_compile_error_per_test_amended (testCases : List TestCase)
    (events : Nat → TestEvent) (cerr : Nat → String)
    (hev : ∀ i, ∃ cc run, events i = .cpp (.compileClosed cc (cerr i) run) ∧ cc ≠ 0) :
    (executeTests "c++" testCases events).length = testCases.length ∧
    ∀ i tc, testCases[i]? = some tc →
      (executeTests "c++" testCases events)[i]? =
        some (mkResult tc (i + 1) (.failure ("Compilation failed: " ++ cerr i))) := by
  constructor
  · exact executeTestsFrom_length "c++" events 0 testCases
  · intro i tc h
    have hg := executeTestsFrom_getElem "c++" events 0 testCases i tc h
    simp only [Nat.zero_add] at hg
    obtain ⟨cc, run, he, hcc⟩ := hev i
    rw [show executeTests "c++" testCases events =
          executeTestsFrom "c++" events 0 testCases from rfl, hg]
    unfold executeSingleTest
    rw [he]
    simp [outcomeFor, cppOutcome, hcc, jsToLower, lowerChars]

/-- Witness for the amended C3 theorem at a concrete batch. -/
theorem cpp_compile_error_per_test_amended_witness :
    (executeTests "c++" [⟨.num 1, "a"⟩]
      (fun _ => .cpp (.compileClosed 1 "boom" (.closed 0 "" "")))).length = 1 :=
  (cpp_compile_error_per_test_amended [⟨.num 1, "a"⟩]
    (fun _ => .cpp (.compileClosed 1 "boom" (.closed 0 "" "")))
    (fun _ => "boom")
    (fun _ => ⟨1, .closed 0 "" "", rfl, by decide⟩)).1

/-- C4: within one problem attempt the hint tier never decreases and never
exceeds 3; on a catalog problem each trigger below the cap increments it
by exactly one; and it is reset to 0 exactly on advancing to the next
problem (advancing past the last problem completes the interview and
changes nothing). -/
theorem hint_tier_monotone_capped_resets (s : CodingState) :
    s.hintTier ≤ (triggerHint s).hintTier ∧
    (s.hintTier ≤ 3 → (triggerHint s).hintTier ≤ 3) ∧
    (s.currentProblem < problemTitles.length → s.hintTier < 3 →
      (triggerHint s).hintTier = s.hintTier + 1) ∧
    (s.currentProblem < problemTitles.length - 1 → (moveToNextProblem s).hintTier = 0) ∧
    (¬ s.currentProblem < problemTitles.length - 1 → moveToNextProblem s = s) := by
  rcases s with ⟨tier, se, ist, cp⟩
  refine ⟨?_, ?_, ?_, ?_, ?_⟩
  · by_cases h3 : tier < 3 <;>
      simp only [triggerHint, h3, if_true, if_false] <;>
      (try split) <;> simp
  · intro hle
    by_cases h3 : tier < 3 <;>
      simp only [triggerHint, h3, if_true, if_false] <;>
      (try split) <;> simp_all <;> omega
  · intro hcp h3
    have hcp2 : cp < 2 := hcp
    have h3' : tier < 3 := h3
    have hhint : ¬ generateHint (problemTitles.getD cp "") (tier + 1) = "" := by
      interval_cases cp <;> interval_cases tier <;> decide
    simp only [triggerHint, h3', if_true]
    rw [if_pos hhint]
  · intro hcp
    simp [moveToNextProblem, hcp]
  · intro hcp
    simp [moveToNextProblem, hcp]

/-- Witness for C4 at a concrete state: tier 0 on the first problem. -/
theorem hint_tier_monotone_capped_resets_witness :
    (triggerHint ⟨0, 0, none, 0⟩).hintTier = 0 + 1 ∧
    (moveToNextProblem ⟨2, 1, some 5, 0⟩).hintTier = 0 :=
  ⟨(hint_tier_monotone_capped_resets ⟨0, 0, none, 0⟩).2.2.1 (by decide) (by decide),
   (hint_tier_monotone_capped_resets ⟨2, 1, some 5, 0⟩).2.2.2.1 (by decide)⟩

/-- C5: after an automated response dispatched at time `t`, a request made
less than 2 minutes later is suppressed — `canSendAIResponse` is false and
the monitoring branch skips the send without any error outcome — while a
request made at least 2 minutes after `t` is permitted and scheduled. -/
theorem cooldown_suppresses_then_permits (t now codeLen : Nat) (hcode : 3 ≤ codeLen) :
    (now - t < 2 * 60 * 1000 →
      canSendAIResponse (updateAIResponseTime t) now = false ∧
      periodicAnalysisDecision codeLen true true (updateAIResponseTime t) now =
        .suppressed) ∧
    (2 * 60 * 1000 ≤ now - t →
      canSendAIResponse (updateAIResponseTime t) now = true ∧
      periodicAnalysisDecision codeLen true true (updateAIResponseTime t) now =
        .scheduled) := by
  constructor
  · intro h
    have h1 : (decide (now - t ≥ 2 * 60 * 1000)) = false := by
      simp only [decide_eq_false_iff_not]
      omega
    have hcan : canSendAIResponse (updateAIResponseTime t) now = false := by
      simp [canSendAIResponse, updateAIResponseTime, aiResponseCooldown, h1]
    exact ⟨hcan, by simp [periodicAnalysisDecision, hcan, hcode]⟩
  · intro h
    have h1 : (decide (now - t ≥ 2 * 60 * 1000)) = true := by
      simp only [decide_eq_true_eq]
      omega
    have h2 : (decide (now < t + 2 * 60 * 1000)) = false := by
      simp only [decide_eq_false_iff_not]
      omega
    have hcan : canSendAIResponse (updateAIResponseTime t) now = true := by
      simp [canSendAIResponse, updateAIResponseTime, aiResponseCooldown, h1, h2]
    exact ⟨hcan, by simp [periodicAnalysisDecision, hcan, hcode]⟩

/-- Witness for C5 at concrete times: 1 ms before the 2-minute mark the
request is suppressed; at the mark it is permitted. -/
theorem cooldown_suppresses_then_permits_witness :
    (canSendAIResponse (updateAIResponseTime 0) 119999 = false ∧
      periodicAnalysisDecision 3 true true (updateAIResponseTime 0) 119999 =
        .suppressed) ∧
    (canSendAIResponse (updateAIResponseTime 0) 120000 = true ∧
      periodicAnalysisDecision 3 true true (updateAIResponseTime 0) 120000 =
        .scheduled) :=
  ⟨(cooldown_suppresses_then_permits 0 119999 3 (by decide)).1 (by decide),
   (cooldown_suppresses_then_permits 0 120000 3 (by decide)).2 (by decide)⟩

/-- C8, counterexample: the overall score emitted at completion is blind
to code-quality signals — a session whose only submission passes all tests
scores 100 and is rated `excellent` whether its recorded analysis score is
0 or 100, so the score is not a weighted combination of pass rate and
quality. -/
theorem overall_score_ignores_quality_signals :
    calculateOverallScore ⟨[⟨2, 2⟩], [0]⟩ = 100 ∧
    calculateOverallScore ⟨[⟨2, 2⟩], [100]⟩ = 100 ∧
    calculateOverallScore ⟨[⟨2, 2⟩], [0]⟩ = calculateOverallScore ⟨[⟨2, 2⟩], [100]⟩ ∧
    completionScoreAndRating ⟨[⟨2, 2⟩], [0]⟩ = (100, "excellent") := by
  have h1 : calculateOverallScore ⟨[⟨2, 2⟩], [0]⟩ = 100 := by
    norm_num [calculateOverallScore, submissionOverallScore, jsRound]
  have h2 : calculateOverallScore ⟨[⟨2, 2⟩], [100]⟩ = 100 := by
    norm_num [calculateOverallScore, submissionOverallScore, jsRound]
  refine ⟨h1, h2, h1.trans h2.symm, ?_⟩
  simp [completionScoreAndRating, h1, overallRating]

/-- Rounding an integer-valued rational is the identity. -/
theorem jsRound_intCast (n : ℤ) : jsRound (n : ℚ) = n := by
  unfold jsRound
  rw [Int.floor_int_add]
  norm_num

/-- C8, amended: the overall score is `Math.round` of the mean of the
per-submission scores, each `Math.round(100 · passed/total)` — a pure
function of the test-pass counts: changing the recorded code-quality
scores never changes it, an empty submission list scores 0, a
single-submission session scores its rounded pass percentage, and a
session whose submissions all fully pass scores 100. -/
theorem overall_score_from_pass_rate_amended (subs : List CodeSubmission)
    (qs qs2 : List ℤ) :
    calculateOverallScore ⟨subs, qs⟩ = calculateOverallScore ⟨subs, qs2⟩ ∧
    (subs = [] → calculateOverallScore ⟨subs, qs⟩ = 0) ∧
    (∀ p t : Nat, 0 < t →
      calculateOverallScore ⟨[⟨p, t⟩], qs⟩ = jsRound ((p : ℚ) / t * 100)) ∧
    ((∀ sub ∈ subs, sub.passedTests = sub.totalTests ∧ 0 < sub.totalTests) →
      subs ≠ [] → calculateOverallScore ⟨subs, qs⟩ = 100) := by
  refine ⟨rfl, ?_, ?_, ?_⟩
  · intro h
    subst h
    simp [calculateOverallScore]
  · intro p t ht
    simp only [calculateOverallScore, List.length_cons, List.length_nil, List.map_cons,
      List.map_nil, List.sum_cons, List.sum_nil, add_zero]
    norm_num
    rw [submissionOverallScore]
    simp only [ht, if_pos]
    exact jsRound_intCast _
  · intro hall hne
    have hmap : subs.map submissionOverallScore = subs.map (fun _ => (100 : ℤ)) := by
      apply List.map_congr_left
      intro sub hsub
      obtain ⟨hpt, hpos⟩ := hall sub hsub
      have htne : (sub.totalTests : ℚ) ≠ 0 := by positivity
      rw [submissionOverallScore, if_pos hpos, hpt, div_self htne, one_mul]
      have : ((100 : ℤ) : ℚ) = (100 : ℚ) := by norm_num
      rw [← this, jsRound_intCast]
    have hlen : (0 : ℚ) < subs.length := by
      have : subs.length ≠ 0 := fun hc => hne (List.length_eq_zero.mp hc)
      positivity
    have hlen0 : ¬ subs.length = 0 := fun hc => hne (List.length_eq_zero.mp hc)
    rw [calculateOverallScore]
    rw [if_neg hlen0, hmap]
    simp only [List.map_const', List.sum_replicate, nsmul_eq_mul]
    push_cast
    rw [mul_comm, mul_div_assoc, div_self (by positivity), mul_one]
    have : ((100 : ℤ) : ℚ) = (100 : ℚ) := by norm_num
    rw [← this, jsRound_intCast]

/-- Witness for the amended C8 theorem: a concrete all-pass session with a
zero quality score still scores 100. -/
theorem overall_score_from_pass_rate_amended_witness :
    calculateOverallScore ⟨[⟨1, 1⟩], [0]⟩ = 100 :=
  (overall_score_from_pass_rate_amended [⟨1, 1⟩] [0] [7]).2.2.2
    (by intro sub hsub; simp at hsub; simp [hsub]) (by simp)

end AiInterviewer
